import Mathlib

/-!
Shallow embedding of the cdk-ffi binding layer (src/lib.rs): the FFI error
taxonomy, the record and enum bridges between engine-domain types and
foreign-safe records, and the wallet/store operations, together with theorems
settling the specification claims about them.

The wallet engine (cdk), the persistence layer (cdk-sqlite) and the bip39
crate are external collaborators: their types appear here as abstract models
(documented as modelled from the spec) and their operations as function
parameters, so that each FFI-layer function is embedded exactly as written in
the source while the external behaviour stays universally quantified.
-/

namespace CdkFfi

/-! Error taxonomy (src/lib.rs lines 38-51). -/

inductive FFIError where
  | walletError (msg : String)
  | invalidInput (msg : String)
  | networkError (msg : String)
  | internalError (msg : String)
deriving DecidableEq, Repr

/-- Modelled from the spec: the engine error type `cdk::error::Error` is
external; it is modelled as its human-readable rendering together with an
abstract structured payload that the boundary must not leak. -/
structure CdkError where
  rendered : String
  structured : Nat
deriving DecidableEq, Repr

/-- Modelled from the spec: the persistence error `cdk_common::database::Error`
is external; rendering plus abstract structured payload. -/
structure DatabaseError where
  rendered : String
  structured : Nat
deriving DecidableEq, Repr

/-- Modelled from the spec: the token error `cdk::nuts::nut00::Error` is
external; rendering plus abstract structured payload. -/
structure Nut00Error where
  rendered : String
  structured : Nat
deriving DecidableEq, Repr

/-- Modelled from the spec: the sqlite store error
`cdk_sqlite::wallet::error::Error` is external; rendering plus abstract
structured payload. -/
structure SqliteError where
  rendered : String
  structured : Nat
deriving DecidableEq, Repr

/-- Embedding of `impl From<cdk::error::Error> for FFIError` (lines 53-59):
`FFIError::WalletError { msg: err.to_string() }`. -/
def FFIError.fromCdkError (e : CdkError) : FFIError :=
  .walletError e.rendered

/-- Embedding of `impl From<cdk_common::database::Error> for FFIError`
(lines 61-67). -/
def FFIError.fromDatabaseError (e : DatabaseError) : FFIError :=
  .walletError e.rendered

/-- Embedding of `impl From<cdk::nuts::nut00::Error> for FFIError`
(lines 69-75). -/
def FFIError.fromNut00Error (e : Nut00Error) : FFIError :=
  .walletError e.rendered

/-- Embedding of `impl From<cdk_sqlite::wallet::error::Error> for FFIError`
(lines 77-83). -/
def FFIError.fromSqliteError (e : SqliteError) : FFIError :=
  .walletError e.rendered

/-! Amounts (src/lib.rs lines 94-111). `cdk::Amount` is a newtype over u64;
both directions of the bridge move the single 64-bit value unchanged. -/

/-- Modelled from the spec: the engine amount `cdk::Amount`, a single
unsigned 64-bit magnitude. -/
structure Amount where
  value : Nat
deriving DecidableEq, Repr

/-- Embedding of `FFIAmount` (lines 94-97). -/
structure FFIAmount where
  value : Nat
deriving DecidableEq, Repr

/-- Embedding of `impl From<Amount> for FFIAmount` (lines 99-105):
`value: amount.into()`. -/
def FFIAmount.fromAmount (a : Amount) : FFIAmount :=
  ⟨a.value⟩

/-- Embedding of `impl From<FFIAmount> for Amount` (lines 107-111):
`Amount::from(ffi_amount.value)`. -/
def Amount.fromFFI (a : FFIAmount) : Amount :=
  ⟨a.value⟩

/-! Mint quote state (src/lib.rs lines 289-305). -/

/-- Modelled from the spec: the engine enumeration
`cdk::nuts::MintQuoteState`; states beyond the three this layer recognizes
(unrecognized or future engine states) are represented by the `other`
constructor, indexed by an arbitrary code. -/
inductive MintQuoteState where
  | unpaid
  | paid
  | issued
  | other (code : Nat)
deriving DecidableEq, Repr

/-- Embedding of `FFIMintQuoteState` (lines 289-294). -/
inductive FFIMintQuoteState where
  | unpaid
  | paid
  | issued
deriving DecidableEq, Repr

/-- Embedding of `impl From<MintQuoteState> for FFIMintQuoteState`
(lines 296-305): the wildcard arm maps every other state to `Unpaid`. -/
def FFIMintQuoteState.fromEngine : MintQuoteState → FFIMintQuoteState
  | .unpaid => .unpaid
  | .paid => .paid
  | .issued => .issued
  | .other _ => .unpaid

/-! Currency units (src/lib.rs lines 345-378). -/

/-- Embedding of `FFICurrencyUnit` (lines 345-351). -/
inductive FFICurrencyUnit where
  | sat
  | msat
  | usd
  | eur
deriving DecidableEq, Repr

/-- Modelled from the spec: the engine `cdk::nuts::CurrencyUnit`, restricted
to the four units the foreign enum covers. -/
inductive CurrencyUnit where
  | sat
  | msat
  | usd
  | eur
deriving DecidableEq, Repr

/-- Embedding of Rust `str::to_lowercase`: lowercase every character. It
agrees with the Rust function on ASCII text, which covers the four
recognized unit spellings. -/
def lowercaseAscii (s : String) : String :=
  ⟨s.data.map Char.toLower⟩

/-- Embedding of `impl TryFrom<String> for FFICurrencyUnit` (lines 353-367):
match on `unit.to_lowercase()`, unknown text is `InvalidInput`. -/
def FFICurrencyUnit.tryFrom (unit : String) : Except FFIError FFICurrencyUnit :=
  if lowercaseAscii unit = "sat" then .ok .sat
  else if lowercaseAscii unit = "msat" then .ok .msat
  else if lowercaseAscii unit = "usd" then .ok .usd
  else if lowercaseAscii unit = "eur" then .ok .eur
  else .error (.invalidInput ("Unknown currency unit: " ++ unit))

/-- Embedding of `impl From<FFICurrencyUnit> for CurrencyUnit`
(lines 369-378). -/
def FFICurrencyUnit.toEngine : FFICurrencyUnit → CurrencyUnit
  | .sat => .sat
  | .msat => .msat
  | .usd => .usd
  | .eur => .eur

/-! Melt quote record (src/lib.rs lines 157-180). -/

/-- Modelled from the spec: the engine melt quote
`cdk_common::wallet::MeltQuote`; the unit field is kept as its canonical text
rendering, which is all the bridge reads of it. -/
structure MeltQuote where
  id : String
  unit : String
  amount : Amount
  request : String
  fee_reserve : Amount
  expiry : Nat
  payment_preimage : Option String
deriving DecidableEq, Repr

/-- Embedding of `FFIMeltQuote` (lines 157-166). -/
structure FFIMeltQuote where
  id : String
  unit : String
  amount : FFIAmount
  request : String
  fee_reserve : FFIAmount
  expiry : Nat
  payment_preimage : Option String
deriving DecidableEq, Repr

/-- Embedding of `impl From<MeltQuote> for FFIMeltQuote` (lines 168-180):
every field is moved across, the optional preimage untouched. -/
def FFIMeltQuote.fromEngine (q : MeltQuote) : FFIMeltQuote :=
  { id := q.id
    unit := q.unit
    amount := FFIAmount.fromAmount q.amount
    request := q.request
    fee_reserve := FFIAmount.fromAmount q.fee_reserve
    expiry := q.expiry
    payment_preimage := q.payment_preimage }

/-! Token record (src/lib.rs lines 201-227). -/

/-- Modelled from the spec: the engine token `cdk::nuts::Token`. Only the
observations the bridge makes are modelled: `mint_url()` (fallible, the error
carried as its rendering), the serialized form (`to_string()`), `memo()` and
`unit()` (the unit kept as its optional text rendering). -/
structure Token where
  mintUrl : Except String String
  rendered : String
  memo : Option String
  unit : Option String
deriving Repr

/-- Embedding of `FFIToken` (lines 201-207). -/
structure FFIToken where
  token_string : String
  mint : String
  memo : Option String
  unit : String
deriving DecidableEq, Repr

/-- Embedding of `impl TryFrom<cdk::nuts::Token> for FFIToken`
(lines 209-227): a failed `mint_url()` becomes `WalletError`; the unit is
`token.unit().map(to_string).unwrap_or_default()`, so an absent unit becomes
the empty string. -/
def FFIToken.tryFrom (t : Token) : Except FFIError FFIToken :=
  match t.mintUrl with
  | .error e => .error (.walletError e)
  | .ok url =>
      .ok { token_string := t.rendered
            mint := url
            memo := t.memo
            unit := (t.unit.map (fun u => u)).getD "" }

/-! Send memo, split target, send kind, send options
(src/lib.rs lines 229-343). -/

/-- Embedding of `FFISendMemo` (lines 253-257). -/
structure FFISendMemo where
  memo : String
  include_memo : Bool
deriving DecidableEq, Repr

/-- Modelled from the spec: the engine `cdk::wallet::SendMemo`, a memo string
plus an include flag. -/
structure SendMemo where
  memo : String
  include_memo : Bool
deriving DecidableEq, Repr

/-- Embedding of `impl From<FFISendMemo> for SendMemo` (lines 259-266). -/
def FFISendMemo.toEngine (m : FFISendMemo) : SendMemo :=
  { memo := m.memo, include_memo := m.include_memo }

/-- Embedding of `FFISplitTarget` (lines 307-311). -/
inductive FFISplitTarget where
  | none
  | default_
deriving DecidableEq, Repr

/-- Modelled from the spec: the engine split-target policy
`cdk::amount::SplitTarget`. The value of `SplitTarget::default()` is external
code; it is represented abstractly by the `defaultTarget` constructor. -/
inductive SplitTarget where
  | none
  | defaultTarget
  | value (a : Amount)
deriving DecidableEq, Repr

/-- Embedding of `impl From<FFISplitTarget> for SplitTarget` (lines 313-320):
`FFISplitTarget::Default` maps to the engine default. -/
def FFISplitTarget.toEngine : FFISplitTarget → SplitTarget
  | .none => .none
  | .default_ => .defaultTarget

/-- Embedding of `FFISendKind` (lines 322-328). -/
inductive FFISendKind where
  | onlineExact
  | onlineTolerance (tolerance : FFIAmount)
  | offlineExact
  | offlineTolerance (tolerance : FFIAmount)
deriving DecidableEq, Repr

/-- Modelled from the spec: the engine `cdk_common::wallet::SendKind`, with
tolerance variants carrying a payload amount. -/
inductive SendKind where
  | onlineExact
  | onlineTolerance (tolerance : Amount)
  | offlineExact
  | offlineTolerance (tolerance : Amount)
deriving DecidableEq, Repr

/-- Embedding of `impl From<FFISendKind> for SendKind` (lines 330-343). -/
def FFISendKind.toEngine : FFISendKind → SendKind
  | .onlineExact => .onlineExact
  | .onlineTolerance t => .onlineTolerance (Amount.fromFFI t)
  | .offlineExact => .offlineExact
  | .offlineTolerance t => .offlineTolerance (Amount.fromFFI t)

/-- Modelled from the spec: the engine spending-condition payload
(`conditions` field of `cdk::wallet::SendOptions`); its content is opaque to
this layer, which never constructs one. -/
structure SpendingConditions where
  payload : Nat
deriving DecidableEq, Repr

/-- Embedding of `FFISendOptions` (lines 229-237); the metadata map is
modelled as an association list. Note the record has no spending-conditions
field at all. -/
structure FFISendOptions where
  memo : Option FFISendMemo
  amount_split_target : FFISplitTarget
  send_kind : FFISendKind
  include_fee : Bool
  metadata : List (String × String)
  max_proofs : Option Nat
deriving DecidableEq, Repr

/-- Modelled from the spec: the engine `cdk::wallet::SendOptions`, which does
carry an optional spending-condition payload. -/
structure SendOptions where
  memo : Option SendMemo
  conditions : Option SpendingConditions
  amount_split_target : SplitTarget
  send_kind : SendKind
  include_fee : Bool
  metadata : List (String × String)
  max_proofs : Option Nat
deriving DecidableEq, Repr

/-- Embedding of `impl From<FFISendOptions> for SendOptions` (lines 239-251):
`conditions` is hard-wired to `None`; `max_proofs` is cast u64 to usize,
lossless on the 64-bit targets this crate builds for. -/
def FFISendOptions.toEngine (o : FFISendOptions) : SendOptions :=
  { memo := o.memo.map FFISendMemo.toEngine
    conditions := none
    amount_split_target := o.amount_split_target.toEngine
    send_kind := o.send_kind.toEngine
    include_fee := o.include_fee
    metadata := o.metadata
    max_proofs := o.max_proofs.map (fun p => p) }

/-! Prepared send record (src/lib.rs lines 268-285). -/

/-- Modelled from the spec: the engine `cdk::wallet::PreparedSend` as observed
through its accessors `amount()`, `swap_fee()`, `send_fee()` and `fee()`,
plus an abstract payload standing for the reserved proofs the FFI record does
not expose. -/
structure PreparedSend where
  amount : Amount
  swap_fee : Amount
  send_fee : Amount
  fee : Amount
  payload : Nat
deriving DecidableEq, Repr

/-- Embedding of `FFIPreparedSend` (lines 268-274). -/
structure FFIPreparedSend where
  amount : FFIAmount
  swap_fee : FFIAmount
  send_fee : FFIAmount
  total_fee : FFIAmount
deriving DecidableEq, Repr

/-- Embedding of `impl From<PreparedSend> for FFIPreparedSend`
(lines 276-285). -/
def FFIPreparedSend.fromEngine (p : PreparedSend) : FFIPreparedSend :=
  { amount := FFIAmount.fromAmount p.amount
    swap_fee := FFIAmount.fromAmount p.swap_fee
    send_fee := FFIAmount.fromAmount p.send_fee
    total_fee := FFIAmount.fromAmount p.fee }

/-! Mnemonic to seed (src/lib.rs lines 28-35). The bip39 crate is external:
its parser and seed derivation are taken as parameters. -/

/-- Modelled from the spec: a successfully parsed BIP-39 mnemonic (the
`bip39::Mnemonic` type), abstract beyond its identity. -/
structure Mnemonic where
  phrase : String
deriving DecidableEq, Repr

/-- A 64-byte seed, the return type `[u8; 64]` of `mnemonic_to_seed`: the
fixed length is carried by the type. -/
def Seed : Type := { l : List Nat // l.length = 64 }

/-- Embedding of `mnemonic_to_seed` (lines 29-35): parse failure becomes
`InvalidInput` with the message prefix `Invalid mnemonic: `; success is the
normalized seed of the parsed mnemonic, with the empty passphrase fixed by
the source. `parse` embeds `Mnemonic::parse` (errors carried as their
rendering) and `toSeedNormalized` embeds `Mnemonic::to_seed_normalized("")`;
both are external bip39 behaviour. -/
def mnemonic_to_seed (parse : String → Except String Mnemonic)
    (toSeedNormalized : Mnemonic → Seed)
    (mnemonic_words : String) : Except FFIError Seed :=
  match parse mnemonic_words with
  | .error e => .error (.invalidInput ("Invalid mnemonic: " ++ e))
  | .ok m => .ok (toSeedNormalized m)

/-! Store constructors (src/lib.rs lines 382-416). -/

/-- Modelled from the spec: an opened persistent store handle
(`cdk_sqlite::WalletSqliteDatabase` behind the `WalletDatabase` trait),
abstract beyond its identity. -/
structure Store where
  id : Nat
deriving DecidableEq, Repr

/-- Embedding of `FFILocalStore::new_with_path` (lines 394-415). The
environment is abstracted by `tempPath` (the temp-dir-plus-fresh-uuid
fallback path computed when no path is supplied) and `openStore` (the
external async `WalletSqliteDatabase::new`, whose error converts through the
sqlite `From` impl). -/
def FFILocalStore.new_with_path (tempPath : String)
    (openStore : String → Except SqliteError Store)
    (db_path : Option String) : Except FFIError Store :=
  let final_db_path : String :=
    match db_path with
    | some custom_path => custom_path
    | none => tempPath
  match openStore final_db_path with
  | .error e => .error (FFIError.fromSqliteError e)
  | .ok store => .ok store

/-- Embedding of `FFILocalStore::new` (lines 389-392):
`Self::new_with_path(None)`. -/
def FFILocalStore.new (tempPath : String)
    (openStore : String → Except SqliteError Store) : Except FFIError Store :=
  FFILocalStore.new_with_path tempPath openStore none

/-! Wallet constructors (src/lib.rs lines 424-475). -/

/-- Modelled from the spec: an engine wallet instance (`cdk::wallet::Wallet`),
abstract beyond its identity. -/
structure Wallet where
  id : Nat
deriving DecidableEq, Repr

/-- Embedding of `FFIWallet::from_mnemonic` (lines 427-447): derive the seed
(propagating its `InvalidInput` failure), then construct the engine wallet
(`CdkWallet::new`, taken as the external parameter `walletNew`, its error
converted through the cdk `From` impl). -/
def FFIWallet.from_mnemonic (parse : String → Except String Mnemonic)
    (toSeedNormalized : Mnemonic → Seed)
    (walletNew : String → CurrencyUnit → Store → Seed → Except CdkError Wallet)
    (mint_url : String) (unit : FFICurrencyUnit) (localstore : Store)
    (mnemonic_words : String) : Except FFIError Wallet :=
  match mnemonic_to_seed parse toSeedNormalized mnemonic_words with
  | .error e => .error e
  | .ok seed =>
      match walletNew mint_url unit.toEngine localstore seed with
      | .error e => .error (FFIError.fromCdkError e)
      | .ok w => .ok w

/-- Embedding of `FFIWallet::restore_from_mnemonic` (lines 450-475): as
`from_mnemonic`, then drive the engine restore (`wallet.restore()`, the
external parameter `restore`) to completion before returning the handle. -/
def FFIWallet.restore_from_mnemonic (parse : String → Except String Mnemonic)
    (toSeedNormalized : Mnemonic → Seed)
    (walletNew : String → CurrencyUnit → Store → Seed → Except CdkError Wallet)
    (restore : Wallet → Except CdkError Unit)
    (mint_url : String) (unit : FFICurrencyUnit) (localstore : Store)
    (mnemonic_words : String) : Except FFIError Wallet :=
  match mnemonic_to_seed parse toSeedNormalized mnemonic_words with
  | .error e => .error e
  | .ok seed =>
      match walletNew mint_url unit.toEngine localstore seed with
      | .error e => .error (FFIError.fromCdkError e)
      | .ok w =>
          match restore w with
          | .error e => .error (FFIError.fromCdkError e)
          | .ok _ => .ok w

/-! Send operations (src/lib.rs lines 506-537). The engine is a record of its
two fallible operations, threading an abstract engine state so that what each
FFI call invokes, and how often, is observable. -/

/-- Modelled from the spec: the engine operations used by `prepare_send` and
`send`, as state-threading functions over an abstract engine state. -/
structure Engine (σ : Type) where
  prepare_send : σ → Amount → SendOptions → σ × Except CdkError PreparedSend
  send : σ → PreparedSend → Option SendMemo → σ × Except CdkError Token

/-- Embedding of `FFIWallet::prepare_send` (lines 506-518): one engine
preparation call, its result converted into the foreign record. -/
def FFIWallet.prepare_send (eng : Engine σ) (s : σ) (amount : FFIAmount)
    (options : FFISendOptions) : σ × Except FFIError FFIPreparedSend :=
  match eng.prepare_send s (Amount.fromFFI amount) options.toEngine with
  | (s2, .error e) => (s2, .error (FFIError.fromCdkError e))
  | (s2, .ok prepared) => (s2, .ok (FFIPreparedSend.fromEngine prepared))

/-- Embedding of `FFIWallet::send` (lines 520-537): first prepare the send
with the engine, then commit the prepared result through the engine send and
convert the resulting token (whose conversion may itself fail). -/
def FFIWallet.send (eng : Engine σ) (s : σ) (amount : FFIAmount)
    (options : FFISendOptions) (memo : Option FFISendMemo) :
    σ × Except FFIError FFIToken :=
  match eng.prepare_send s (Amount.fromFFI amount) options.toEngine with
  | (s2, .error e) => (s2, .error (FFIError.fromCdkError e))
  | (s2, .ok prepared) =>
      match eng.send s2 prepared (memo.map FFISendMemo.toEngine) with
      | (s3, .error e) => (s3, .error (FFIError.fromCdkError e))
      | (s3, .ok token) =>
          match FFIToken.tryFrom token with
          | .error e => (s3, .error e)
          | .ok t => (s3, .ok t)

/-- The sentence of the claim, as its own definition: running the engine
preparation step that `prepare_send` performs, with the same amount and
options, and then committing that prepared result through the engine send
into a token. Stated separately from `FFIWallet.send` so the refinement is an
equality between two definitions. -/
def sendViaPrepareThenCommit (eng : Engine σ) (s : σ) (amount : FFIAmount)
    (options : FFISendOptions) (memo : Option FFISendMemo) :
    σ × Except FFIError FFIToken :=
  let prepStep := eng.prepare_send s (Amount.fromFFI amount) options.toEngine
  match prepStep with
  | (s2, .error e) => (s2, .error (FFIError.fromCdkError e))
  | (s2, .ok prepared) =>
      let commitStep := eng.send s2 prepared (memo.map FFISendMemo.toEngine)
      match commitStep with
      | (s3, .error e) => (s3, .error (FFIError.fromCdkError e))
      | (s3, .ok token) =>
          match FFIToken.tryFrom token with
          | .error e => (s3, .error e)
          | .ok t => (s3, .ok t)

/-- An engine whose state counts how many preparation calls it has received;
each call succeeds with the fixed prepared result `p`, and each send succeeds
with the fixed token `t`. -/
def countingEngine (p : PreparedSend) (t : Token) : Engine Nat :=
  { prepare_send := fun n _ _ => (n + 1, .ok p)
    send := fun n _ _ => (n, .ok t) }

/-! Mint info (src/lib.rs lines 556-589). -/

/-- Modelled from the spec: the engine mint metadata; only the optional name
is observed by this layer. -/
structure MintInfo where
  name : Option String
deriving DecidableEq, Repr

/-- Modelled from the spec: one engine keyset; the FFI layer only observes
how many were returned. -/
structure Keyset where
  id : String
deriving DecidableEq, Repr

/-- Embedding of `FFIWallet::get_mint_info` (lines 556-589). The three
engine interactions appear in source order as parameters: `infoFirst` is the
first `self.inner.get_mint_info()` (its `?` propagates failure), `keysetsQ`
is `self.inner.get_mint_keysets()` (matched, failure folded into a success
string), and `infoSecond` is the re-check `self.inner.get_mint_info()`
inside the `Ok` arm (its `?` propagates failure too). -/
def FFIWallet.get_mint_info (infoFirst : Except CdkError (Option MintInfo))
    (keysetsQ : Except CdkError (List Keyset))
    (infoSecond : Except CdkError (Option MintInfo)) :
    Except FFIError String :=
  match infoFirst with
  | .error e => .error (FFIError.fromCdkError e)
  | .ok (some mint_info) =>
      .ok ("Mint info already initialized: " ++
        mint_info.name.getD "Unknown Mint")
  | .ok none =>
      match keysetsQ with
      | .ok keysets =>
          match infoSecond with
          | .error e => .error (FFIError.fromCdkError e)
          | .ok (some mint_info) =>
              .ok ("Mint info fetched and initialized: " ++
                mint_info.name.getD "Unknown Mint" ++
                " (keysets: " ++ toString keysets.length ++ ")")
          | .ok none =>
              .ok ("Mint keysets loaded (" ++ toString keysets.length ++
                " keysets) but mint info still not available")
      | .error e =>
          .ok ("Failed to get mint keysets: " ++ e.rendered)

/-! Concrete bip39 stand-ins, used to evaluate the mnemonic theorems at
concrete inputs. -/

/-- A concrete parser accepting exactly one phrase, standing in for
`Mnemonic::parse` when a theorem is instantiated. -/
def demoParse : String → Except String Mnemonic :=
  fun s =>
    if s = "abandon ability able" then .ok ⟨s⟩ else .error "invalid word"

/-- A concrete seed derivation standing in for `to_seed_normalized` when a
theorem is instantiated. -/
def demoSeed : Mnemonic → Seed :=
  fun _ => ⟨List.replicate 64 0, by simp⟩

end CdkFfi

/-! Theorems settling the claims. -/

namespace CdkFfi

/-- C5: converting an engine Amount to an FFIAmount and back (and an
FFIAmount to an Amount and back) yields the original value exactly, for
every unsigned 64-bit magnitude: the bridge performs no rounding or
truncation anywhere in the u64 range. -/
theorem amount_roundtrip_exact (v : Nat) (_h : v < 2 ^ 64) :
    FFIAmount.fromAmount (Amount.fromFFI ⟨v⟩) = ⟨v⟩ ∧
    Amount.fromFFI (FFIAmount.fromAmount ⟨v⟩) = ⟨v⟩ :=
  ⟨rfl, rfl⟩

/-- Witness for C5 at the concrete value 18446744073709551615 (the largest
u64). -/
theorem amount_roundtrip_exact_witness :
    18446744073709551615 < 2 ^ 64 ∧
    FFIAmount.fromAmount (Amount.fromFFI ⟨18446744073709551615⟩) =
      ⟨18446744073709551615⟩ :=
  ⟨by norm_num, (amount_roundtrip_exact 18446744073709551615 (by norm_num)).1⟩

/-- C3: the conversion from engine MintQuoteState to FFIMintQuoteState is a
total function: Unpaid, Paid and Issued map to their namesakes and every
other engine state maps to Unpaid (totality holds by construction, so no
input can panic). -/
theorem mintQuoteState_total_with_unpaid_default :
    FFIMintQuoteState.fromEngine .unpaid = .unpaid ∧
    FFIMintQuoteState.fromEngine .paid = .paid ∧
    FFIMintQuoteState.fromEngine .issued = .issued ∧
    ∀ code : Nat, FFIMintQuoteState.fromEngine (.other code) = .unpaid :=
  ⟨rfl, rfl, rfl, fun _ => rfl⟩

/-- C4: currency-unit parsing is case-insensitive — every string whose
lowercase form is sat, msat, usd or eur parses to the corresponding unit, and
every other string is rejected with InvalidInput, never any other outcome. -/
theorem currencyUnit_parse_case_insensitive (s : String) :
    (lowercaseAscii s = "sat" → FFICurrencyUnit.tryFrom s = .ok .sat) ∧
    (lowercaseAscii s = "msat" → FFICurrencyUnit.tryFrom s = .ok .msat) ∧
    (lowercaseAscii s = "usd" → FFICurrencyUnit.tryFrom s = .ok .usd) ∧
    (lowercaseAscii s = "eur" → FFICurrencyUnit.tryFrom s = .ok .eur) ∧
    (lowercaseAscii s ≠ "sat" → lowercaseAscii s ≠ "msat" →
      lowercaseAscii s ≠ "usd" → lowercaseAscii s ≠ "eur" →
      FFICurrencyUnit.tryFrom s =
        .error (.invalidInput ("Unknown currency unit: " ++ s))) := by
  refine ⟨fun h => ?_, fun h => ?_, fun h => ?_, fun h => ?_,
    fun h1 h2 h3 h4 => ?_⟩ <;>
    simp_all [FFICurrencyUnit.tryFrom]

/-- Witness for C4: SAT, sat and Sat all parse to Sat, and a string outside
the four units is rejected as InvalidInput. -/
theorem currencyUnit_parse_case_insensitive_witness :
    FFICurrencyUnit.tryFrom "SAT" = .ok .sat ∧
    FFICurrencyUnit.tryFrom "sat" = .ok .sat ∧
    FFICurrencyUnit.tryFrom "Sat" = .ok .sat ∧
    FFICurrencyUnit.tryFrom "btc" =
      .error (.invalidInput ("Unknown currency unit: " ++ "btc")) :=
  ⟨(currencyUnit_parse_case_insensitive "SAT").1 (by decide),
   (currencyUnit_parse_case_insensitive "sat").1 (by decide),
   (currencyUnit_parse_case_insensitive "Sat").1 (by decide),
   (currencyUnit_parse_case_insensitive "btc").2.2.2.2
     (by decide) (by decide) (by decide) (by decide)⟩

/-- C7: each of the four external error types (engine, database, token/nut00,
sqlite store) maps to the WalletError kind carrying exactly the original
error's textual rendering, and the mapping ignores the structured payload
entirely, so no structured field survives the boundary. -/
theorem external_errors_collapse_to_walletError :
    (∀ e : CdkError, FFIError.fromCdkError e = .walletError e.rendered) ∧
    (∀ e : DatabaseError,
      FFIError.fromDatabaseError e = .walletError e.rendered) ∧
    (∀ e : Nut00Error, FFIError.fromNut00Error e = .walletError e.rendered) ∧
    (∀ e : SqliteError,
      FFIError.fromSqliteError e = .walletError e.rendered) ∧
    (∀ (r : String) (n₁ n₂ : Nat),
      FFIError.fromCdkError ⟨r, n₁⟩ = FFIError.fromCdkError ⟨r, n₂⟩) ∧
    (∀ (r : String) (n₁ n₂ : Nat),
      FFIError.fromDatabaseError ⟨r, n₁⟩ = FFIError.fromDatabaseError ⟨r, n₂⟩) ∧
    (∀ (r : String) (n₁ n₂ : Nat),
      FFIError.fromNut00Error ⟨r, n₁⟩ = FFIError.fromNut00Error ⟨r, n₂⟩) ∧
    (∀ (r : String) (n₁ n₂ : Nat),
      FFIError.fromSqliteError ⟨r, n₁⟩ = FFIError.fromSqliteError ⟨r, n₂⟩) :=
  ⟨fun _ => rfl, fun _ => rfl, fun _ => rfl, fun _ => rfl,
   fun _ _ _ => rfl, fun _ _ _ => rfl, fun _ _ _ => rfl, fun _ _ _ => rfl⟩

/-- C9: converting FFISendOptions to the engine SendOptions always sets the
spending conditions to None, while memo, split-target policy, send kind,
fee-inclusion flag, metadata map and optional max-proof count are all
propagated from the input. -/
theorem sendOptions_drop_conditions_propagate_rest (o : FFISendOptions) :
    (o.toEngine).conditions = none ∧
    (o.toEngine).memo = o.memo.map FFISendMemo.toEngine ∧
    (o.toEngine).amount_split_target = o.amount_split_target.toEngine ∧
    (o.toEngine).send_kind = o.send_kind.toEngine ∧
    (o.toEngine).include_fee = o.include_fee ∧
    (o.toEngine).metadata = o.metadata ∧
    (o.toEngine).max_proofs = o.max_proofs := by
  refine ⟨rfl, rfl, rfl, rfl, rfl, rfl, ?_⟩
  cases h : o.max_proofs <;> simp [FFISendOptions.toEngine, h]

/-- C10: the no-argument store constructor is exactly new_with_path applied
to an absent path: with the same environment behaviour (the same fallback
temp path and the same external store opener) the two return the same
result. -/
theorem localStore_new_eq_new_with_path_none (tempPath : String)
    (openStore : String → Except SqliteError Store) :
    FFILocalStore.new tempPath openStore =
      FFILocalStore.new_with_path tempPath openStore none :=
  rfl

end CdkFfi

namespace CdkFfi

/-- C1 counterexample: get_mint_info is not error-free — when the engine's
first cached-mint-info lookup itself fails, the `?` operator propagates the
failure outward as a WalletError, one of the four error kinds. -/
theorem get_mint_info_counterexample :
    FFIWallet.get_mint_info (.error ⟨"database failure", 0⟩) (.ok [])
      (.ok none) = .error (.walletError "database failure") :=
  rfl

/-- C1 (amended): the degraded outcomes named by the spec — a failed keyset
fetch, and keysets loaded with mint info still missing — are indeed reported
as successful status strings; but an engine failure of either cached-mint-info
lookup propagates outward as a WalletError, so every error get_mint_info
returns comes from one of those two lookups. -/
theorem get_mint_info_degraded_ok_error_only_from_info_lookup :
    (∀ (e : CdkError) (infoSecond : Except CdkError (Option MintInfo)),
      FFIWallet.get_mint_info (.ok none) (.error e) infoSecond =
        .ok ("Failed to get mint keysets: " ++ e.rendered)) ∧
    (∀ keysets : List Keyset,
      FFIWallet.get_mint_info (.ok none) (.ok keysets) (.ok none) =
        .ok ("Mint keysets loaded (" ++ toString keysets.length ++
          " keysets) but mint info still not available")) ∧
    (∀ (infoFirst : Except CdkError (Option MintInfo))
       (keysetsQ : Except CdkError (List Keyset))
       (infoSecond : Except CdkError (Option MintInfo)) (fe : FFIError),
      FFIWallet.get_mint_info infoFirst keysetsQ infoSecond = .error fe →
        (∃ e : CdkError,
          infoFirst = .error e ∧ fe = .walletError e.rendered) ∨
        (∃ e : CdkError,
          infoSecond = .error e ∧ fe = .walletError e.rendered)) := by
  refine ⟨fun e infoSecond => rfl, fun keysets => rfl, ?_⟩
  intro infoFirst keysetsQ infoSecond fe h
  cases infoFirst with
  | error e =>
      left
      refine ⟨e, rfl, ?_⟩
      simpa [FFIWallet.get_mint_info, FFIError.fromCdkError] using h.symm
  | ok oi =>
      cases oi with
      | some mi => simp [FFIWallet.get_mint_info] at h
      | none =>
          cases keysetsQ with
          | error e2 => simp [FFIWallet.get_mint_info] at h
          | ok ks =>
              cases infoSecond with
              | error e =>
                  right
                  refine ⟨e, rfl, ?_⟩
                  simpa [FFIWallet.get_mint_info, FFIError.fromCdkError]
                    using h.symm
              | ok oi2 =>
                  cases oi2 <;> simp [FFIWallet.get_mint_info] at h

/-- Witness for the amended C1, applying it where the second cached-info
lookup fails concretely. -/
theorem get_mint_info_amended_witness :
    (∃ e : CdkError,
      (.ok none : Except CdkError (Option MintInfo)) = .error e ∧
      (FFIError.walletError "re-check failed") = .walletError e.rendered) ∨
    (∃ e : CdkError,
      (.error ⟨"re-check failed", 7⟩ : Except CdkError (Option MintInfo)) =
        .error e ∧
      (FFIError.walletError "re-check failed") = .walletError e.rendered) :=
  get_mint_info_degraded_ok_error_only_from_info_lookup.2.2
    (.ok none) (.ok []) (.error ⟨"re-check failed", 7⟩)
    (.walletError "re-check failed") rfl

/-- C2 counterexample: converting a token whose unit is absent does not
reflect the absence — the foreign record's unit is a mandatory string and the
conversion substitutes the default empty string for it. -/
theorem token_absent_unit_coerced_to_empty :
    FFIToken.tryFrom ⟨.ok "https://mint.example", "cashuAtok", none, none⟩ =
      .ok ⟨"cashuAtok", "https://mint.example", none, ""⟩ :=
  rfl

/-- C2 (amended): optional fields other than the token's unit propagate
absence exactly — the melt quote's optional payment preimage and the token's
optional memo cross the boundary untouched — but the token's unit, absent on
the engine side, is coerced to the empty string because the foreign token
record carries a mandatory unit string. -/
theorem optional_fields_propagate_except_token_unit :
    (∀ q : MeltQuote,
      (FFIMeltQuote.fromEngine q).payment_preimage = q.payment_preimage) ∧
    (∀ (t : Token) (url : String), t.mintUrl = .ok url →
      FFIToken.tryFrom t =
        .ok ⟨t.rendered, url, t.memo, t.unit.getD ""⟩) := by
  refine ⟨fun q => rfl, ?_⟩
  intro t url h
  cases t with
  | mk mintUrl rendered memo unit =>
      cases unit <;> simp_all [FFIToken.tryFrom]

/-- Witness for the amended C2: a token with a present memo and an absent
unit converts to a record with the memo intact and an empty unit string. -/
theorem optional_fields_propagate_witness :
    (⟨.ok "https://m", "tok", some "note", none⟩ : Token).mintUrl =
      .ok "https://m" ∧
    FFIToken.tryFrom ⟨.ok "https://m", "tok", some "note", none⟩ =
      .ok ⟨"tok", "https://m", some "note", ""⟩ :=
  ⟨rfl, optional_fields_propagate_except_token_unit.2
    ⟨.ok "https://m", "tok", some "note", none⟩ "https://m" rfl⟩

end CdkFfi

namespace CdkFfi

/-- C6: for every string the bip39 parser rejects, mnemonic_to_seed — and
with it both wallet constructors, which call it first — returns an
InvalidInput error carrying the parser's message (total functions, so no
input can panic); for every string the parser accepts, the seed is the
deterministic normalized expansion of the parsed mnemonic, whose 64-byte
length is carried by the Seed type. -/
theorem mnemonic_invalid_rejected_valid_fixed_seed :
    (∀ (parse : String → Except String Mnemonic)
       (toSeedNormalized : Mnemonic → Seed) (words e : String),
      parse words = .error e →
        mnemonic_to_seed parse toSeedNormalized words =
          .error (.invalidInput ("Invalid mnemonic: " ++ e)) ∧
        ∀ (walletNew : String → CurrencyUnit → Store → Seed →
            Except CdkError Wallet)
          (restore : Wallet → Except CdkError Unit)
          (mint_url : String) (unit : FFICurrencyUnit) (store : Store),
          FFIWallet.from_mnemonic parse toSeedNormalized walletNew
            mint_url unit store words =
            .error (.invalidInput ("Invalid mnemonic: " ++ e)) ∧
          FFIWallet.restore_from_mnemonic parse toSeedNormalized walletNew
            restore mint_url unit store words =
            .error (.invalidInput ("Invalid mnemonic: " ++ e))) ∧
    (∀ (parse : String → Except String Mnemonic)
       (toSeedNormalized : Mnemonic → Seed) (words : String) (m : Mnemonic),
      parse words = .ok m →
        mnemonic_to_seed parse toSeedNormalized words =
          .ok (toSeedNormalized m) ∧
        (toSeedNormalized m).val.length = 64) := by
  constructor
  · intro parse toSeedNormalized words e h
    refine ⟨?_, ?_⟩
    · simp [mnemonic_to_seed, h]
    · intro walletNew restore mint_url unit store
      constructor
      · simp [FFIWallet.from_mnemonic, mnemonic_to_seed, h]
      · simp [FFIWallet.restore_from_mnemonic, mnemonic_to_seed, h]
  · intro parse toSeedNormalized words m h
    exact ⟨by simp [mnemonic_to_seed, h], (toSeedNormalized m).2⟩

/-- Witness for C6 with the concrete bip39 stand-ins: a non-mnemonic string
is rejected as InvalidInput, and the accepted phrase expands to a seed. -/
theorem mnemonic_invalid_rejected_witness :
    demoParse "not a mnemonic" = .error "invalid word" ∧
    mnemonic_to_seed demoParse demoSeed "not a mnemonic" =
      .error (.invalidInput ("Invalid mnemonic: " ++ "invalid word")) ∧
    demoParse "abandon ability able" = .ok ⟨"abandon ability able"⟩ ∧
    mnemonic_to_seed demoParse demoSeed "abandon ability able" =
      .ok (demoSeed ⟨"abandon ability able"⟩) :=
  ⟨rfl,
   (mnemonic_invalid_rejected_valid_fixed_seed.1 demoParse demoSeed
     "not a mnemonic" "invalid word" rfl).1,
   rfl,
   (mnemonic_invalid_rejected_valid_fixed_seed.2 demoParse demoSeed
     "abandon ability able" ⟨"abandon ability able"⟩ rfl).1⟩

/-- C8: the one-shot send is exactly prepare-then-commit — it equals the
definition that runs the engine preparation with the same amount and options
and immediately commits the prepared result through the engine send into a
token — and the preparation is performed internally on each call, so a
separate prepare_send followed by send drives the engine preparation twice
(observed on an engine whose state counts preparation calls). -/
theorem send_is_prepare_then_commit :
    (∀ (σ : Type) (eng : Engine σ) (s : σ) (amount : FFIAmount)
       (options : FFISendOptions) (memo : Option FFISendMemo),
      FFIWallet.send eng s amount options memo =
        sendViaPrepareThenCommit eng s amount options memo) ∧
    (∀ (p : PreparedSend) (t : Token) (n : Nat) (amount : FFIAmount)
       (options : FFISendOptions) (memo : Option FFISendMemo),
      (FFIWallet.send (countingEngine p t)
        (FFIWallet.prepare_send (countingEngine p t) n amount options).1
        amount options memo).1 = n + 2) := by
  constructor
  · intro σ eng s amount options memo
    rfl
  · intro p t n amount options memo
    simp only [FFIWallet.prepare_send, FFIWallet.send, countingEngine]
    cases h : FFIToken.tryFrom t <;> simp [h]

end CdkFfi
